import Mathlib

/-!
Verification development for the multi-crop image tool
(`multi_crop_app.py`).  Scene/content coordinates (Python floats) are
modelled by rationals; Qt's `QRectF` is modelled by a record of
x/y/width/height together with faithful transcriptions of the `QRectF`
operations the application uses (`normalized`, `intersected`, the
`set*`/`move*` edge mutators).  The interactive state touched by the
claims (crop collection, id counter, selection, resize handles,
transient draw rectangle) is carried in an explicit state record, and
each event handler of interest is transcribed as a pure state
transformer.
-/

namespace CropApp

/-- A point in scene coordinates (`QPointF`). -/
structure Pt where
  x : ℚ
  y : ℚ
  deriving DecidableEq, Repr

/-- A rectangle in scene coordinates (`QRectF`): stored as top-left plus
width/height, which may be negative for non-normalized rectangles,
exactly as in Qt. -/
structure Rect where
  x : ℚ
  y : ℚ
  w : ℚ
  h : ℚ
  deriving DecidableEq, Repr

namespace Rect

/-- `QRectF.left()`. -/
def left (r : Rect) : ℚ := r.x

/-- `QRectF.top()`. -/
def top (r : Rect) : ℚ := r.y

/-- `QRectF.right()` = `x + w`. -/
def right (r : Rect) : ℚ := r.x + r.w

/-- `QRectF.bottom()` = `y + h`. -/
def bottom (r : Rect) : ℚ := r.y + r.h

/-- `QRectF.topLeft()`. -/
def topLeft (r : Rect) : Pt := ⟨r.x, r.y⟩

/-- `QRectF.topRight()`. -/
def topRight (r : Rect) : Pt := ⟨r.x + r.w, r.y⟩

/-- `QRectF.bottomLeft()`. -/
def bottomLeft (r : Rect) : Pt := ⟨r.x, r.y + r.h⟩

/-- `QRectF.bottomRight()`. -/
def bottomRight (r : Rect) : Pt := ⟨r.x + r.w, r.y + r.h⟩

/-- The `QRectF(topLeft, bottomRight)` two-point constructor: width and
height are the (possibly negative) coordinate differences. -/
def fromPoints (p1 p2 : Pt) : Rect := ⟨p1.x, p1.y, p2.x - p1.x, p2.y - p1.y⟩

/-- `QRectF.normalized()`: flips a negative width/height around so both
become non-negative. -/
def normalized (r : Rect) : Rect :=
  let r1 := if r.w < 0 then { r with x := r.x + r.w, w := -r.w } else r
  if r1.h < 0 then { r1 with y := r1.y + r1.h, h := -r1.h } else r1

/-- `QRectF.setLeft(v)`: moves the left edge, keeping the right edge. -/
def setLeft (r : Rect) (v : ℚ) : Rect := { r with x := v, w := r.w - (v - r.x) }

/-- `QRectF.setRight(v)`: moves the right edge, keeping the left edge. -/
def setRight (r : Rect) (v : ℚ) : Rect := { r with w := v - r.x }

/-- `QRectF.setTop(v)`: moves the top edge, keeping the bottom edge. -/
def setTop (r : Rect) (v : ℚ) : Rect := { r with y := v, h := r.h - (v - r.y) }

/-- `QRectF.setBottom(v)`: moves the bottom edge, keeping the top edge. -/
def setBottom (r : Rect) (v : ℚ) : Rect := { r with h := v - r.y }

/-- `QRectF.setWidth(v)`: left edge fixed. -/
def setWidth (r : Rect) (v : ℚ) : Rect := { r with w := v }

/-- `QRectF.setHeight(v)`: top edge fixed. -/
def setHeight (r : Rect) (v : ℚ) : Rect := { r with h := v }

/-- `QRectF.moveRight(v)`: translates the rectangle so its right edge is
at `v` (size preserved). -/
def moveRight (r : Rect) (v : ℚ) : Rect := { r with x := v - r.w }

/-- `QRectF.moveBottom(v)`: translates so the bottom edge is at `v`. -/
def moveBottom (r : Rect) (v : ℚ) : Rect := { r with y := v - r.h }

/-- `QRectF.moveLeft(v)`: translates so the left edge is at `v`. -/
def moveLeft (r : Rect) (v : ℚ) : Rect := { r with x := v }

/-- `QRectF.moveTop(v)`: translates so the top edge is at `v`. -/
def moveTop (r : Rect) (v : ℚ) : Rect := { r with y := v }

/-- `QRectF.intersected(other)` (Qt's `operator&`): returns the
intersection, or the null rectangle `(0,0,0,0)` when either operand is
null in an axis or the (normalized) spans do not strictly overlap. -/
def intersected (a b : Rect) : Rect :=
  let l1 := if a.w < 0 then a.x + a.w else a.x
  let r1 := if a.w < 0 then a.x else a.x + a.w
  if l1 = r1 then ⟨0, 0, 0, 0⟩ else
  let l2 := if b.w < 0 then b.x + b.w else b.x
  let r2 := if b.w < 0 then b.x else b.x + b.w
  if l2 = r2 then ⟨0, 0, 0, 0⟩ else
  if l1 ≥ r2 ∨ l2 ≥ r1 then ⟨0, 0, 0, 0⟩ else
  let t1 := if a.h < 0 then a.y + a.h else a.y
  let b1 := if a.h < 0 then a.y else a.y + a.h
  if t1 = b1 then ⟨0, 0, 0, 0⟩ else
  let t2 := if b.h < 0 then b.y + b.h else b.y
  let b2 := if b.h < 0 then b.y else b.y + b.h
  if t2 = b2 then ⟨0, 0, 0, 0⟩ else
  if t1 ≥ b2 ∨ t2 ≥ b1 then ⟨0, 0, 0, 0⟩ else
  ⟨max l1 l2, max t1 t2, min r1 r2 - max l1 l2, min b1 b2 - max t1 t2⟩

end Rect

/-- `HandlePosition` enum of the source. -/
inductive HandlePosition where
  | NONE
  | TOP_LEFT
  | TOP_RIGHT
  | BOTTOM_LEFT
  | BOTTOM_RIGHT
  deriving DecidableEq, Repr

/-- The fixed (diagonally opposite) corner chosen by
`calculate_resized_rect` for a given handle; the `NONE` case never
reaches this computation (the handler returns the original rectangle
first). -/
def fixed_point_for (original : Rect) : HandlePosition → Pt
  | .TOP_LEFT => original.bottomRight
  | .TOP_RIGHT => original.bottomLeft
  | .BOTTOM_LEFT => original.topRight
  | .BOTTOM_RIGHT => original.topLeft
  | .NONE => ⟨0, 0⟩

/-- The corner of the original rectangle that the given handle drags. -/
def dragged_corner_of (original : Rect) : HandlePosition → Pt
  | .TOP_LEFT => original.topLeft
  | .TOP_RIGHT => original.topRight
  | .BOTTOM_LEFT => original.bottomLeft
  | .BOTTOM_RIGHT => original.bottomRight
  | .NONE => ⟨0, 0⟩

/-- Minimum-size enforcement on the ideal rectangle (lines 391–397 of
the source): expand a too-small dimension away from the edges adjacent
to the dragged handle. -/
def enforce_min_size (ideal_rect : Rect) (handle_pos : HandlePosition)
    (min_size : ℚ) : Rect :=
  let fr1 :=
    if ideal_rect.w < min_size then
      if handle_pos = .TOP_LEFT ∨ handle_pos = .BOTTOM_LEFT then
        ideal_rect.setLeft (ideal_rect.right - min_size)
      else ideal_rect.setRight (ideal_rect.left + min_size)
    else ideal_rect
  if fr1.h < min_size then
    if handle_pos = .TOP_LEFT ∨ handle_pos = .TOP_RIGHT then
      fr1.setTop (fr1.bottom - min_size)
    else fr1.setBottom (fr1.top + min_size)
  else fr1

/-- The post-intersection fixup of `calculate_resized_rect`
(lines 403–410 of the source): pad a dimension that clamping shrank
below the minimum, then translate the rectangle back inside the clamp
rectangle edge by edge. -/
def min_size_reclamp (c0 clamp_rect : Rect) (min_size : ℚ) : Rect :=
  let c1 := if c0.w < min_size then c0.setWidth min_size else c0
  let c2 := if c1.h < min_size then c1.setHeight min_size else c1
  let c3 := if c2.right > clamp_rect.right then c2.moveRight clamp_rect.right else c2
  let c4 := if c3.bottom > clamp_rect.bottom then c3.moveBottom clamp_rect.bottom else c3
  let c5 := if c4.left < clamp_rect.left then c4.moveLeft clamp_rect.left else c4
  if c5.top < clamp_rect.top then c5.moveTop clamp_rect.top else c5

/-- `CropGraphicsView.calculate_resized_rect` (lines 367–413 of the
source), transcribed step by step: fixed point, dragged point, ideal
rectangle via the two-point constructor and `normalized`, minimum-size
enforcement anchored away from the dragged handle, intersection with the
clamp rectangle, post-clamp minimum-size fixup, and the final position
re-clamp. -/
def calculate_resized_rect (original_rect_scene : Rect)
    (start_scene_pos current_scene_pos : Pt)
    (handle_pos : HandlePosition) (clamp_rect : Rect) : Rect :=
  let min_size : ℚ := 1
  if handle_pos = .NONE then original_rect_scene else
  let fixed_point := fixed_point_for original_rect_scene handle_pos
  let corner := dragged_corner_of original_rect_scene handle_pos
  let dragged_point : Pt :=
    ⟨corner.x + (current_scene_pos.x - start_scene_pos.x),
     corner.y + (current_scene_pos.y - start_scene_pos.y)⟩
  let ideal_rect := (Rect.fromPoints fixed_point dragged_point).normalized
  let final_rect := enforce_min_size ideal_rect handle_pos min_size
  min_size_reclamp (final_rect.intersected clamp_rect) clamp_rect min_size

/-- The content bounds of a loaded image: the scene rectangle
`(0, 0, W, H)` of the pixmap item. -/
def contentBounds (W H : ℚ) : Rect := ⟨0, 0, W, H⟩

example :
    calculate_resized_rect ⟨50, 50, 250, 250⟩ ⟨300, 300⟩ ⟨790, 590⟩
      .BOTTOM_RIGHT (contentBounds 800 600) = ⟨50, 50, 740, 540⟩ := by
  norm_num [calculate_resized_rect, enforce_min_size, min_size_reclamp,
    fixed_point_for, dragged_corner_of, Rect.fromPoints, Rect.normalized,
    Rect.intersected, Rect.setLeft, Rect.setRight, Rect.setTop,
    Rect.setBottom, Rect.setWidth, Rect.setHeight, Rect.moveRight,
    Rect.moveBottom, Rect.moveLeft, Rect.moveTop, Rect.left, Rect.top,
    Rect.right, Rect.bottom, Rect.topLeft, Rect.topRight, Rect.bottomLeft,
    Rect.bottomRight, contentBounds]
  all_goals decide

/-- The rectangle lies inside the `(0,0,W,H)` content bounds and both
dimensions are at least 1. -/
def insideMin (W H : ℚ) (r : Rect) : Prop :=
  0 ≤ r.x ∧ 0 ≤ r.y ∧ r.x + r.w ≤ W ∧ r.y + r.h ≤ H ∧ 1 ≤ r.w ∧ 1 ≤ r.h

/-- The rectangle lies inside the `(0,0,W,H)` content bounds and both
dimensions are strictly positive. -/
def posInside (W H : ℚ) (r : Rect) : Prop :=
  0 ≤ r.x ∧ 0 ≤ r.y ∧ r.x + r.w ≤ W ∧ r.y + r.h ≤ H ∧ 0 < r.w ∧ 0 < r.h

lemma intersected_contentBounds (a : Rect) (W H : ℚ)
    (haw : 0 ≤ a.w) (hah : 0 ≤ a.h) (hW : 0 < W) (hH : 0 < H) :
    a.intersected (contentBounds W H) = ⟨0, 0, 0, 0⟩ ∨
      posInside W H (a.intersected (contentBounds W H)) := by
  have h1 : ¬ (a.w < 0) := not_lt.mpr haw
  have h2 : ¬ (a.h < 0) := not_lt.mpr hah
  have h3 : ¬ (W < 0) := by linarith
  have h4 : ¬ (H < 0) := by linarith
  simp only [Rect.intersected, contentBounds, if_neg h1, if_neg h2,
    if_neg h3, if_neg h4, zero_add, posInside]
  split_ifs with e1 e2 e3 e4 e5 e6 <;>
    first
      | exact Or.inl rfl
      | (push_neg at *
         right
         refine ⟨le_max_right _ _, le_max_right _ _, ?_, ?_, ?_, ?_⟩ <;>
           simp only [ge_iff_le, not_le, not_or] at * <;>
           [ (linarith [le_max_left a.x (0:ℚ), le_max_right a.x (0:ℚ), min_le_right (a.x + a.w) W]);
             (linarith [le_max_right a.y (0:ℚ), min_le_right (a.y + a.h) H]);
             (refine sub_pos.mpr (max_lt (lt_min ?_ ?_) (lt_min ?_ ?_)) <;> linarith [lt_of_le_of_ne haw (by intro hc; exact e1 (by linarith))]);
             (refine sub_pos.mpr (max_lt (lt_min ?_ ?_) (lt_min ?_ ?_)) <;> linarith [lt_of_le_of_ne hah (by intro hc; exact e4 (by linarith))])])

set_option maxHeartbeats 1000000 in
lemma min_size_reclamp_insideMin (c : Rect) (W H : ℚ)
    (hW : 1 ≤ W) (hH : 1 ≤ H)
    (hc : c = ⟨0, 0, 0, 0⟩ ∨ posInside W H c) :
    insideMin W H (min_size_reclamp c (contentBounds W H) 1) := by
  have hfacts : (c.x = 0 ∧ c.y = 0 ∧ c.w = 0 ∧ c.h = 0) ∨
      (0 ≤ c.x ∧ 0 ≤ c.y ∧ c.x + c.w ≤ W ∧ c.y + c.h ≤ H ∧
        0 < c.w ∧ 0 < c.h) := by
    rcases hc with hc | hc
    · subst hc; exact Or.inl ⟨rfl, rfl, rfl, rfl⟩
    · exact Or.inr hc
  obtain ⟨cx, cy, cw, ch⟩ := c
  dsimp only [posInside] at hfacts
  simp only [min_size_reclamp, contentBounds, insideMin, Rect.setWidth,
    Rect.setHeight, Rect.moveRight, Rect.moveBottom, Rect.moveLeft,
    Rect.moveTop, Rect.right, Rect.bottom, Rect.left, Rect.top]
  rcases hfacts with ⟨h1, h2, h3, h4⟩ | ⟨h1, h2, h3, h4, h5, h6⟩ <;>
    split_ifs <;>
    ((try dsimp only at *)
     refine ⟨by linarith, by linarith, by linarith, by linarith,
       by linarith, by linarith⟩)

lemma enforce_min_size_nonneg (r : Rect) (hp : HandlePosition)
    (hw : 0 ≤ r.w) (hh : 0 ≤ r.h) :
    0 ≤ (enforce_min_size r hp 1).w ∧ 0 ≤ (enforce_min_size r hp 1).h := by
  obtain ⟨rx, ry, rw, rh⟩ := r
  simp only [enforce_min_size, Rect.setLeft, Rect.setRight, Rect.setTop,
    Rect.setBottom, Rect.right, Rect.left, Rect.top, Rect.bottom]
  split_ifs <;>
    ((try dsimp only at *)
     exact ⟨by linarith, by linarith⟩)

lemma normalized_nonneg (r : Rect) :
    0 ≤ r.normalized.w ∧ 0 ≤ r.normalized.h := by
  obtain ⟨rx, ry, rw, rh⟩ := r
  simp only [Rect.normalized]
  split_ifs <;>
    ((try dsimp only at *)
     exact ⟨by linarith, by linarith⟩)

/-- Core geometric guarantee of the resize computation: for any actual
handle, the returned rectangle is inside the content bounds with both
dimensions at least the minimum size 1. -/
lemma calculate_resized_rect_insideMin (original : Rect)
    (start_pos current_pos : Pt) (hp : HandlePosition) (W H : ℚ)
    (hnp : hp ≠ .NONE) (hW : 1 ≤ W) (hH : 1 ≤ H) :
    insideMin W H
      (calculate_resized_rect original start_pos current_pos hp
        (contentBounds W H)) := by
  rw [calculate_resized_rect]
  rw [if_neg hnp]
  apply min_size_reclamp_insideMin _ _ _ hW hH
  refine intersected_contentBounds _ _ _ ?_ ?_ (by linarith) (by linarith)
  · exact (enforce_min_size_nonneg _ hp (normalized_nonneg _).1
      (normalized_nonneg _).2).1
  · exact (enforce_min_size_nonneg _ hp (normalized_nonneg _).1
      (normalized_nonneg _).2).2

/-- A point lying inside (or on the boundary of) the `(0,0,W,H)`
content bounds. -/
def ptInBounds (W H : ℚ) (p : Pt) : Prop :=
  0 ≤ p.x ∧ p.x ≤ W ∧ 0 ≤ p.y ∧ p.y ≤ H

/-- The Moving-state pointer-move update (lines 239–255 of the source):
translate the drag-start rectangle by the pointer delta, clamp the new
top-left edge by edge against the image rectangle, and keep the
drag-start size (`setPos` only moves the item). -/
def move_update (start_rect : Rect) (delta : Pt) (img_rect : Rect) : Rect :=
  let nx0 := start_rect.x + delta.x
  let ny0 := start_rect.y + delta.y
  let nx1 := if nx0 < img_rect.left then img_rect.left else nx0
  let ny1 := if ny0 < img_rect.top then img_rect.top else ny0
  let nx2 := if nx1 + start_rect.w > img_rect.right then
    img_rect.right - start_rect.w else nx1
  let ny2 := if ny1 + start_rect.h > img_rect.bottom then
    img_rect.bottom - start_rect.h else ny1
  ⟨nx2, ny2, start_rect.w, start_rect.h⟩

/-- One geometry-mutating pointer-move event on a region: either a
Moving-state update or a Resizing-state update, in each case computed
from the region's geometry at drag start. -/
inductive DragEvent where
  | move (delta : Pt)
  | resize (hp : HandlePosition) (start_pos current_pos : Pt)

/-- Apply a pointer-move event to the region's current persisted
geometry. -/
def apply_drag_event (bounds : Rect) (g : Rect) : DragEvent → Rect
  | .move d => move_update g d bounds
  | .resize hp s c => calculate_resized_rect g s c hp bounds

lemma move_update_posInside (g : Rect) (d : Pt) (W H : ℚ)
    (hg : posInside W H g) :
    posInside W H (move_update g d (contentBounds W H)) := by
  obtain ⟨gx, gy, gw, gh⟩ := g
  obtain ⟨h1, h2, h3, h4, h5, h6⟩ := hg
  simp only [move_update, contentBounds, Rect.left, Rect.top, Rect.right,
    Rect.bottom, posInside] at *
  split_ifs <;>
    ((try dsimp only at *)
     refine ⟨by linarith, by linarith, by linarith, by linarith,
       by linarith, by linarith⟩)

lemma calculate_resized_rect_NONE (g : Rect) (s c : Pt) (b : Rect) :
    calculate_resized_rect g s c .NONE b = g := by
  rw [calculate_resized_rect, if_pos rfl]

lemma apply_drag_event_posInside (W H : ℚ) (hW : 1 ≤ W) (hH : 1 ≤ H)
    (g : Rect) (hg : posInside W H g) (e : DragEvent) :
    posInside W H (apply_drag_event (contentBounds W H) g e) := by
  cases e with
  | move d => exact move_update_posInside g d W H hg
  | resize hp s c =>
    by_cases hnp : hp = .NONE
    · subst hnp
      rw [apply_drag_event, calculate_resized_rect_NONE]
      exact hg
    · have h := calculate_resized_rect_insideMin g s c hp W H hnp hW hH
      obtain ⟨a1, a2, a3, a4, a5, a6⟩ := h
      simp only [apply_drag_event]
      exact ⟨a1, a2, a3, a4, by linarith, by linarith⟩

lemma foldl_drag_posInside (W H : ℚ) (hW : 1 ≤ W) (hH : 1 ≤ H)
    (evs : List DragEvent) (g : Rect) (hg : posInside W H g) :
    posInside W H (evs.foldl (apply_drag_event (contentBounds W H)) g) := by
  induction evs generalizing g with
  | nil => exact hg
  | cons e evs ih =>
    exact ih _ (apply_drag_event_posInside W H hW hH g hg e)

lemma intersected_self_of_posInside (g : Rect) (W H : ℚ)
    (hg : posInside W H g) :
    g.intersected (contentBounds W H) = g := by
  obtain ⟨gx, gy, gw, gh⟩ := g
  obtain ⟨h1, h2, h3, h4, h5, h6⟩ := hg
  dsimp only at h1 h2 h3 h4 h5 h6
  have hW : 0 < W := by linarith
  have hH : 0 < H := by linarith
  have e1 : ¬ (gw < 0) := by linarith
  have e2 : ¬ (gh < 0) := by linarith
  have e3 : ¬ (W < 0) := by linarith
  have e4 : ¬ (H < 0) := by linarith
  simp only [Rect.intersected, contentBounds, if_neg e1, if_neg e2,
    if_neg e3, if_neg e4, zero_add]
  rw [if_neg (by intro hc; linarith),
    if_neg (by intro hc; linarith),
    if_neg (by rw [not_or]; constructor <;> push_neg <;> linarith),
    if_neg (by intro hc; linarith),
    if_neg (by intro hc; linarith),
    if_neg (by rw [not_or]; constructor <;> push_neg <;> linarith)]
  have mx : max gx 0 = gx := max_eq_left h1
  have my : max gy 0 = gy := max_eq_left h2
  have mw : min (gx + gw) W = gx + gw := min_eq_left h3
  have mh : min (gy + gh) H = gy + gh := min_eq_left h4
  rw [mx, my, mw, mh]
  congr 1 <;> ring

/-- C1: for every original rectangle whose fixed corner lies inside the
content bounds, every actual handle, and every drag start/current point
pair, the rectangle returned by `calculate_resized_rect` is fully
contained in the `(0,0,W,H)` content bounds of a loaded image (whose
dimensions are at least one pixel) and has width ≥ 1 and height ≥ 1; in
particular a zero-area rectangle can never be written to the region
store by a resize. -/
theorem resize_result_in_bounds_and_min_size
    (original : Rect) (start_pos current_pos : Pt) (hp : HandlePosition)
    (W H : ℚ) (hnp : hp ≠ .NONE) (hW : 1 ≤ W) (hH : 1 ≤ H)
    (hfix : ptInBounds W H (fixed_point_for original hp)) :
    insideMin W H
      (calculate_resized_rect original start_pos current_pos hp
        (contentBounds W H)) :=
  calculate_resized_rect_insideMin original start_pos current_pos hp W H
    hnp hW hH

/-- Witness for C1 at a concrete drag: the bottom-right handle of the
rectangle `(50,50,250,250)` dragged from `(300,300)` to `(900,900)` on
an 800×600 image. -/
theorem resize_result_in_bounds_and_min_size_witness :
    HandlePosition.BOTTOM_RIGHT ≠ HandlePosition.NONE ∧
      (1 : ℚ) ≤ 800 ∧ (1 : ℚ) ≤ 600 ∧
      ptInBounds 800 600
        (fixed_point_for ⟨50, 50, 250, 250⟩ .BOTTOM_RIGHT) ∧
      insideMin 800 600
        (calculate_resized_rect ⟨50, 50, 250, 250⟩ ⟨300, 300⟩ ⟨900, 900⟩
          .BOTTOM_RIGHT (contentBounds 800 600)) :=
  ⟨by decide, by norm_num, by norm_num,
    by norm_num [ptInBounds, fixed_point_for, Rect.topLeft],
    resize_result_in_bounds_and_min_size ⟨50, 50, 250, 250⟩ ⟨300, 300⟩
      ⟨900, 900⟩ .BOTTOM_RIGHT 800 600 (by decide) (by norm_num)
      (by norm_num)
      (by norm_num [ptInBounds, fixed_point_for, Rect.topLeft])⟩

/-- C2: starting from any persisted region geometry inside the content
bounds with positive dimensions, after any sequence of Moving and
Resizing pointer-move updates the geometry intersected with the content
bounds equals the geometry itself — no persisted region ever extends
outside the image rectangle. -/
theorem region_clamping_invariant (W H : ℚ) (hW : 1 ≤ W) (hH : 1 ≤ H)
    (g0 : Rect) (h0 : posInside W H g0) (evs : List DragEvent) :
    (evs.foldl (apply_drag_event (contentBounds W H)) g0).intersected
        (contentBounds W H) =
      evs.foldl (apply_drag_event (contentBounds W H)) g0 :=
  intersected_self_of_posInside _ W H
    (foldl_drag_posInside W H hW hH evs g0 h0)

/-- Witness for C2: a move followed by two resizes of the region
`(50,50,250,250)` on an 800×600 image. -/
theorem region_clamping_invariant_witness :
    (1 : ℚ) ≤ 800 ∧ (1 : ℚ) ≤ 600 ∧
      posInside 800 600 ⟨50, 50, 250, 250⟩ ∧
      (([DragEvent.move ⟨-500, 900⟩,
         DragEvent.resize .TOP_LEFT ⟨0, 0⟩ ⟨-70, 44⟩,
         DragEvent.resize .BOTTOM_RIGHT ⟨5, 5⟩ ⟨1000, 1000⟩].foldl
          (apply_drag_event (contentBounds 800 600))
          ⟨50, 50, 250, 250⟩).intersected (contentBounds 800 600) =
        [DragEvent.move ⟨-500, 900⟩,
         DragEvent.resize .TOP_LEFT ⟨0, 0⟩ ⟨-70, 44⟩,
         DragEvent.resize .BOTTOM_RIGHT ⟨5, 5⟩ ⟨1000, 1000⟩].foldl
          (apply_drag_event (contentBounds 800 600)) ⟨50, 50, 250, 250⟩) :=
  ⟨by norm_num, by norm_num, by norm_num [posInside],
    region_clamping_invariant 800 600 (by norm_num) (by norm_num)
      ⟨50, 50, 250, 250⟩ (by norm_num [posInside]) _⟩

/-- A crop region: the id assigned by `CropInfo.__init__` together with
the geometry `get_rect_image_coords()` reads off the graphics item. -/
structure CropRegion where
  id : ℕ
  rect : Rect
  deriving DecidableEq, Repr

/-- The interactive state the claims touch: `MainWindow.crops`,
`CropInfo._next_id`, the view's `_selected_crop_info`, its
`_handle_items` (each handle recorded as its corner and the id of the
crop it is parented to), and the transient `_current_temp_rect_item`
rectangle of a drawing drag. -/
structure AppState where
  crops : List CropRegion
  next_id : ℕ
  selected : Option CropRegion
  handles : List (HandlePosition × ℕ)
  temp : Option Rect
  deriving DecidableEq, Repr

/-- The four corner handles instantiated for a newly selected crop: the
loop over `HandlePosition` in `set_selected_crop` skips `NONE` and
creates one `ResizeHandleItem` per remaining member, in enum order. -/
def corner_handles (i : ℕ) : List (HandlePosition × ℕ) :=
  [(.TOP_LEFT, i), (.TOP_RIGHT, i), (.BOTTOM_LEFT, i), (.BOTTOM_RIGHT, i)]

/-- `CropGraphicsView.set_selected_crop` (lines 135–155 of the source):
early-out when the selection is unchanged; otherwise remove the previous
selection's handles, store the new selection, instantiate its four
corner handles, and emit `crop_selected_signal` once.  The returned list
is the sequence of selection-changed notifications emitted.  (Pen and
z-value changes are display-only and carry no claim-relevant state.) -/
def set_selected_crop (s : AppState) (c : Option CropRegion) :
    AppState × List (Option CropRegion) :=
  if s.selected = c then (s, [])
  else
    let s1 := match s.selected with
      | some _ => { s with handles := [] }
      | none => s
    let s2 := { s1 with selected := c }
    let s3 := match c with
      | some r => { s2 with handles := corner_handles r.id }
      | none => s2
    (s3, [c])

/-- The Drawing branch of `CropGraphicsView.mouseReleaseEvent`
(lines 289–306 of the source): remove the transient rectangle; if its
width and height are both strictly greater than `min_size = 5`, create a
permanent crop item, assign it the next id, append it to
`MainWindow.crops` and select it; otherwise clear the selection. -/
def mouse_release_drawing (s : AppState) :
    AppState × List (Option CropRegion) :=
  match s.temp with
  | none => (s, [])
  | some final_rect =>
    let s0 := { s with temp := none }
    let min_size : ℚ := 5
    if final_rect.w > min_size ∧ final_rect.h > min_size then
      let new_crop : CropRegion := ⟨s0.next_id, final_rect⟩
      let s1 := { s0 with crops := s0.crops ++ [new_crop],
                          next_id := s0.next_id + 1 }
      set_selected_crop s1 (some new_crop)
    else
      set_selected_crop s0 none

/-- `CropGraphicsView.wheelEvent` (lines 322–329 of the source) with the
current transform scale `m11` and the requested factor: reject (leaving
the scale unchanged and accepting/notifying nothing) whenever the
product leaves `[0.05, 100]`, otherwise multiply the scale.  The boolean
records whether the event was applied. -/
def wheel_zoom (current_zoom zoom_factor : ℚ) : ℚ × Bool :=
  if current_zoom * zoom_factor < 1/20 ∨ current_zoom * zoom_factor > 100 then
    (current_zoom, false)
  else
    (current_zoom * zoom_factor, true)

/-- The collection-level operations affecting crop identity: creation
(`CropInfo.__init__` inside the draw-commit), removal
(`self.crops.remove` in `delete_selected_crop`), and the reset performed
by a successful `open_image` (`self.crops.clear(); CropInfo._next_id = 1`). -/
inductive RegionOp where
  | create (r : Rect)
  | remove (c : CropRegion)
  | reset
  deriving DecidableEq, Repr

/-- The slice of state relevant to id assignment, plus a ghost `log` of
every id handed out, in creation order. -/
structure IdState where
  crops : List CropRegion
  next_id : ℕ
  log : List ℕ
  deriving DecidableEq, Repr

/-- Apply one collection operation: `create` reads `_next_id` and
post-increments it; `remove` is Python `list.remove` (first occurrence);
`reset` clears the collection and sets the counter back to 1. -/
def apply_region_op (s : IdState) : RegionOp → IdState
  | .create r =>
      { crops := s.crops ++ [⟨s.next_id, r⟩], next_id := s.next_id + 1,
        log := s.log ++ [s.next_id] }
  | .remove c => { s with crops := s.crops.erase c }
  | .reset => { crops := [], next_id := 1, log := s.log }

/-- Run a sequence of collection operations. -/
def run_region_ops (s : IdState) (ops : List RegionOp) : IdState :=
  ops.foldl apply_region_op s

/-- The state when the application starts (`self.crops = []`,
`CropInfo._next_id = 1`). -/
def init_id_state : IdState := ⟨[], 1, []⟩

/-- Number of `create` operations in a list. -/
def count_creates (ops : List RegionOp) : ℕ :=
  (ops.filter fun o => match o with | .create _ => true | _ => false).length

/-- Python `list.remove`: removes the first occurrence, raises
`ValueError` (modelled as `none`) if the element is absent. -/
def py_list_remove (l : List CropRegion) (x : CropRegion) :
    Option (List CropRegion) :=
  if x ∈ l then some (l.erase x) else none

/-- `MainWindow.delete_selected_crop` (lines 575–590 of the source):
no selection means nothing happens at all; with a selection and a
confirmed dialog, the crop item leaves the scene (line 583,
`self.scene.removeItem`, display-side), then line 585 iterates the
view's handle items calling `self.scene().removeItem(handle)` — but in
`MainWindow`, `self.scene` is the `QGraphicsScene` attribute (line 439),
so calling it raises `TypeError` on the first handle; only with an empty
handle list does control reach `self.crops.remove` (which raises
`ValueError` when the element is absent) and the deselection.  `none`
models an uncaught Python exception. -/
def delete_selected_crop (s : AppState) (confirm_yes : Bool) :
    Option AppState :=
  match s.selected with
  | none => some s
  | some info =>
    if confirm_yes then
      if s.handles = [] then
        match py_list_remove s.crops info with
        | none => none
        | some crops1 =>
          let s1 := { s with crops := crops1, handles := [] }
          some (set_selected_crop s1 none).1
      else none
    else some s

/-- Where a failed image load raises inside the `try` block of
`MainWindow.open_image`: at `Image.open` itself (line 515, e.g. an
unrecognizable header — PIL opens lazily and only reads the header), or
later while decoding pixels in `pillow_to_qimage` (line 519, e.g.
truncated image data), after line 517 (`self.crops.clear();
CropInfo._next_id = 1`) and line 518 (`set_selected_crop(None)`) have
already run. -/
inductive LoadFailure where
  | atOpen
  | atDecode
  deriving DecidableEq, Repr

/-- `MainWindow.open_image` (lines 511–529 of the source) on a load that
fails at the given point: the `try` block runs up to the raising line,
then the `except` branch nulls `pil_image`/`image_path` (display-side),
clears the scene and empties the collection; the handler itself touches
neither `CropInfo._next_id` nor the view's `_selected_crop_info`, so
what survives depends on where the raise happened. -/
def open_image_failure (s : AppState) : LoadFailure → AppState
  | .atOpen => { s with crops := [] }
  | .atDecode =>
    let s1 := (set_selected_crop { s with crops := [], next_id := 1 } none).1
    { s1 with crops := [] }

lemma set_selected_crop_selected (s : AppState) (c : Option CropRegion) :
    (set_selected_crop s c).1.selected = c := by
  unfold set_selected_crop
  split_ifs with h
  · exact h
  · cases s.selected <;> cases c <;> rfl

lemma set_selected_crop_noop (s : AppState) (c : Option CropRegion)
    (h : s.selected = c) : set_selected_crop s c = (s, []) := by
  unfold set_selected_crop
  rw [if_pos h]

lemma set_selected_crop_crops (s : AppState) (c : Option CropRegion) :
    (set_selected_crop s c).1.crops = s.crops := by
  unfold set_selected_crop
  split_ifs <;> cases s.selected <;> cases c <;> rfl

lemma set_selected_crop_next_id (s : AppState) (c : Option CropRegion) :
    (set_selected_crop s c).1.next_id = s.next_id := by
  unfold set_selected_crop
  split_ifs <;> cases s.selected <;> cases c <;> rfl

lemma set_selected_crop_temp (s : AppState) (c : Option CropRegion) :
    (set_selected_crop s c).1.temp = s.temp := by
  unfold set_selected_crop
  split_ifs <;> cases s.selected <;> cases c <;> rfl

/-- C6: selection is exclusive — the selected crop is the single
`_selected_crop_info` field, so at most one region is ever selected; a
select of a changed target installs the new selection, instantiates
exactly the four corner handles bound to it, and a select of none leaves
zero handles (the previous selection's handles are removed in both
cases). -/
theorem select_exclusivity_four_handles (s : AppState)
    (c : Option CropRegion) (hne : s.selected ≠ c) :
    (set_selected_crop s c).1.selected = c ∧
    (∀ r, c = some r →
      (set_selected_crop s c).1.handles = corner_handles r.id ∧
      (corner_handles r.id).length = 4) ∧
    (c = none → (set_selected_crop s c).1.handles = []) := by
  refine ⟨set_selected_crop_selected s c, ?_, ?_⟩
  · intro r hc
    subst hc
    refine ⟨?_, rfl⟩
    unfold set_selected_crop
    rw [if_neg hne]
  · intro hc
    subst hc
    unfold set_selected_crop
    rw [if_neg hne]
    cases hs : s.selected with
    | none => exact absurd hs hne
    | some _ => rfl

/-- Witness for C6: selecting crop 1 in a state where nothing is
selected. -/
theorem select_exclusivity_four_handles_witness :
    ((⟨[⟨1, ⟨0, 0, 10, 10⟩⟩], 2, none, [], none⟩ : AppState).selected ≠
        some ⟨1, ⟨0, 0, 10, 10⟩⟩) ∧
      ((set_selected_crop ⟨[⟨1, ⟨0, 0, 10, 10⟩⟩], 2, none, [], none⟩
          (some ⟨1, ⟨0, 0, 10, 10⟩⟩)).1.selected =
        some ⟨1, ⟨0, 0, 10, 10⟩⟩ ∧
      (∀ r, (some ⟨1, ⟨0, 0, 10, 10⟩⟩ : Option CropRegion) = some r →
        (set_selected_crop ⟨[⟨1, ⟨0, 0, 10, 10⟩⟩], 2, none, [], none⟩
            (some ⟨1, ⟨0, 0, 10, 10⟩⟩)).1.handles = corner_handles r.id ∧
        (corner_handles r.id).length = 4) ∧
      ((some ⟨1, ⟨0, 0, 10, 10⟩⟩ : Option CropRegion) = none →
        (set_selected_crop ⟨[⟨1, ⟨0, 0, 10, 10⟩⟩], 2, none, [], none⟩
            (some ⟨1, ⟨0, 0, 10, 10⟩⟩)).1.handles = [])) :=
  ⟨by simp,
    select_exclusivity_four_handles ⟨[⟨1, ⟨0, 0, 10, 10⟩⟩], 2, none, [], none⟩
      (some ⟨1, ⟨0, 0, 10, 10⟩⟩) (by simp)⟩

/-- C7: select is idempotent — repeating a select with the same argument
is a no-op that emits nothing, selecting the already-current selection is
a no-op, and two consecutive selects of the same changed target emit
exactly one selection-changed notification overall. -/
theorem select_idempotent (s : AppState) (c : Option CropRegion) :
    set_selected_crop (set_selected_crop s c).1 c =
      ((set_selected_crop s c).1, []) ∧
    (s.selected = c → set_selected_crop s c = (s, [])) ∧
    (s.selected ≠ c →
      ((set_selected_crop s c).2 ++
        (set_selected_crop (set_selected_crop s c).1 c).2).length = 1) := by
  refine ⟨set_selected_crop_noop _ c (set_selected_crop_selected s c),
    fun h => set_selected_crop_noop s c h, fun h => ?_⟩
  have h1 : (set_selected_crop s c).2 = [c] := by
    unfold set_selected_crop
    rw [if_neg h]
  have h2 : (set_selected_crop (set_selected_crop s c).1 c).2 = [] := by
    rw [set_selected_crop_noop _ c (set_selected_crop_selected s c)]
  simp [h1, h2]

/-- Witness for C7: selecting crop 1 twice from an empty selection. -/
theorem select_idempotent_witness :
    (set_selected_crop
        (set_selected_crop ⟨[⟨1, ⟨0, 0, 10, 10⟩⟩], 2, none, [], none⟩
          (some ⟨1, ⟨0, 0, 10, 10⟩⟩)).1 (some ⟨1, ⟨0, 0, 10, 10⟩⟩) =
      ((set_selected_crop ⟨[⟨1, ⟨0, 0, 10, 10⟩⟩], 2, none, [], none⟩
          (some ⟨1, ⟨0, 0, 10, 10⟩⟩)).1, [])) ∧
    ((set_selected_crop ⟨[⟨1, ⟨0, 0, 10, 10⟩⟩], 2, none, [], none⟩
        (some ⟨1, ⟨0, 0, 10, 10⟩⟩)).2 ++
      (set_selected_crop
        (set_selected_crop ⟨[⟨1, ⟨0, 0, 10, 10⟩⟩], 2, none, [], none⟩
          (some ⟨1, ⟨0, 0, 10, 10⟩⟩)).1
        (some ⟨1, ⟨0, 0, 10, 10⟩⟩)).2).length = 1 :=
  ⟨(select_idempotent ⟨[⟨1, ⟨0, 0, 10, 10⟩⟩], 2, none, [], none⟩
      (some ⟨1, ⟨0, 0, 10, 10⟩⟩)).1,
    (select_idempotent ⟨[⟨1, ⟨0, 0, 10, 10⟩⟩], 2, none, [], none⟩
      (some ⟨1, ⟨0, 0, 10, 10⟩⟩)).2.2 (by simp)⟩

/-- C3 counterexample: a transient rectangle of exactly 5×5 content
units — both dimensions are at least the minimum size 5, yet the release
handler creates no region and clears the selection, because the source
guard is strict (`width() > min_size and height() > min_size`). -/
theorem draw_release_at_exact_min_size_discards :
    ((5 : ℚ) ≤ (Rect.mk 0 0 5 5).w ∧ (5 : ℚ) ≤ (Rect.mk 0 0 5 5).h) ∧
    (mouse_release_drawing ⟨[], 1, none, [], some ⟨0, 0, 5, 5⟩⟩).1.crops
        = [] ∧
    (mouse_release_drawing ⟨[], 1, none, [], some ⟨0, 0, 5, 5⟩⟩).1.selected
        = none := by
  refine ⟨⟨by norm_num, by norm_num⟩, ?_, ?_⟩ <;>
    norm_num [mouse_release_drawing, set_selected_crop]

/-- C3 (amended): on left pointer-up in the Drawing state, if the
transient rectangle's final width and height are each strictly greater
than 5 content units then a region with that geometry and the next id is
appended to the collection and becomes the selection; otherwise no
region is created, the transient rectangle is discarded, and the
selection is cleared. -/
theorem draw_release_commit_strict_min (s : AppState) (fr : Rect)
    (htemp : s.temp = some fr) :
    ((5 < fr.w ∧ 5 < fr.h) →
      (mouse_release_drawing s).1.crops = s.crops ++ [⟨s.next_id, fr⟩] ∧
      (mouse_release_drawing s).1.selected = some ⟨s.next_id, fr⟩ ∧
      (mouse_release_drawing s).1.next_id = s.next_id + 1 ∧
      (mouse_release_drawing s).1.temp = none) ∧
    (¬ (5 < fr.w ∧ 5 < fr.h) →
      (mouse_release_drawing s).1.crops = s.crops ∧
      (mouse_release_drawing s).1.next_id = s.next_id ∧
      (mouse_release_drawing s).1.selected = none ∧
      (mouse_release_drawing s).1.temp = none) := by
  have hrel : mouse_release_drawing s =
      (let s0 : AppState := { s with temp := none }
       if fr.w > 5 ∧ fr.h > 5 then
         set_selected_crop
           { s0 with crops := s0.crops ++ [⟨s0.next_id, fr⟩],
                     next_id := s0.next_id + 1 }
           (some ⟨s0.next_id, fr⟩)
       else set_selected_crop s0 none) := by
    unfold mouse_release_drawing
    rw [htemp]
  constructor
  · intro hbig
    rw [hrel]
    simp only [if_pos (by exact ⟨hbig.1, hbig.2⟩ : fr.w > 5 ∧ fr.h > 5)]
    exact ⟨by rw [set_selected_crop_crops],
      set_selected_crop_selected _ _,
      by rw [set_selected_crop_next_id],
      by rw [set_selected_crop_temp]⟩
  · intro hsmall
    rw [hrel]
    simp only [if_neg (by exact fun hc => hsmall ⟨hc.1, hc.2⟩ :
      ¬ (fr.w > 5 ∧ fr.h > 5))]
    exact ⟨by rw [set_selected_crop_crops],
      by rw [set_selected_crop_next_id],
      set_selected_crop_selected _ _,
      by rw [set_selected_crop_temp]⟩

/-- Witness for the amended C3: releasing a 250×250 draw in the initial
state commits crop 1 and selects it. -/
theorem draw_release_commit_strict_min_witness :
    ((⟨[], 1, none, [], some ⟨50, 50, 250, 250⟩⟩ : AppState).temp =
        some ⟨50, 50, 250, 250⟩) ∧
    ((5 : ℚ) < 250 ∧ (5 : ℚ) < 250) ∧
    ((mouse_release_drawing
        ⟨[], 1, none, [], some ⟨50, 50, 250, 250⟩⟩).1.crops =
      [] ++ [⟨1, ⟨50, 50, 250, 250⟩⟩] ∧
     (mouse_release_drawing
        ⟨[], 1, none, [], some ⟨50, 50, 250, 250⟩⟩).1.selected =
      some ⟨1, ⟨50, 50, 250, 250⟩⟩ ∧
     (mouse_release_drawing
        ⟨[], 1, none, [], some ⟨50, 50, 250, 250⟩⟩).1.next_id = 1 + 1 ∧
     (mouse_release_drawing
        ⟨[], 1, none, [], some ⟨50, 50, 250, 250⟩⟩).1.temp = none) :=
  ⟨rfl, ⟨by norm_num, by norm_num⟩,
    (draw_release_commit_strict_min
      ⟨[], 1, none, [], some ⟨50, 50, 250, 250⟩⟩ ⟨50, 50, 250, 250⟩
      rfl).1 ⟨by norm_num, by norm_num⟩⟩

lemma run_region_ops_no_reset (ops : List RegionOp) (s : IdState)
    (h : ∀ o ∈ ops, o ≠ .reset) :
    (run_region_ops s ops).log =
      s.log ++ List.range' s.next_id (count_creates ops) ∧
    (run_region_ops s ops).next_id = s.next_id + count_creates ops := by
  induction ops generalizing s with
  | nil => simp [run_region_ops, count_creates]
  | cons o t ih =>
    have ht : ∀ o ∈ t, o ≠ RegionOp.reset :=
      fun o ho => h o (List.mem_cons_of_mem _ ho)
    cases o with
    | create r =>
      have step := ih (apply_region_op s (.create r)) ht
      have hcount : count_creates (.create r :: t) = count_creates t + 1 := by
        simp [count_creates, List.filter]
      have hrun : run_region_ops s (.create r :: t) =
          run_region_ops (apply_region_op s (.create r)) t := rfl
      rw [hrun, hcount, step.1, step.2]
      refine ⟨?_, by simp [apply_region_op]; ring⟩
      simp [apply_region_op, List.range'_succ, List.append_assoc]
    | remove c =>
      have step := ih (apply_region_op s (.remove c)) ht
      have hcount : count_creates (.remove c :: t) = count_creates t := by
        simp [count_creates, List.filter]
      have hrun : run_region_ops s (.remove c :: t) =
          run_region_ops (apply_region_op s (.remove c)) t := rfl
      rw [hrun, hcount]
      simpa [apply_region_op] using step
    | reset => exact absurd rfl (h _ (List.mem_cons_self _ _))

/-- C4: starting from the fresh state, any operation sequence without a
reset hands out ids `1, 2, …, N` (`N` the number of creations) in
creation order, regardless of interleaved removals — ids are strictly
increasing and never reused; and immediately after the reset performed
on loading a new image, the next created region receives id 1. -/
theorem region_id_assignment :
    (∀ ops : List RegionOp, (∀ o ∈ ops, o ≠ .reset) →
      (run_region_ops init_id_state ops).log =
        List.range' 1 (count_creates ops)) ∧
    (∀ (s : IdState) (r : Rect),
      (run_region_ops s [.reset, .create r]).log = s.log ++ [1]) := by
  constructor
  · intro ops h
    simpa [init_id_state] using (run_region_ops_no_reset ops init_id_state h).1
  · intro s r
    rfl

/-- Witness for C4: create, delete the first crop, create again — the
assigned ids are `[1, 2]`. -/
theorem region_id_assignment_witness :
    (∀ o ∈ ([.create ⟨0, 0, 10, 10⟩, .remove ⟨1, ⟨0, 0, 10, 10⟩⟩,
        .create ⟨5, 5, 20, 20⟩] : List RegionOp), o ≠ .reset) ∧
    (run_region_ops init_id_state
        [.create ⟨0, 0, 10, 10⟩, .remove ⟨1, ⟨0, 0, 10, 10⟩⟩,
         .create ⟨5, 5, 20, 20⟩]).log = [1, 2] := by
  have h : ∀ o ∈ ([.create ⟨0, 0, 10, 10⟩, .remove ⟨1, ⟨0, 0, 10, 10⟩⟩,
      .create ⟨5, 5, 20, 20⟩] : List RegionOp), o ≠ .reset := by
    intro o ho
    fin_cases ho <;> simp
  refine ⟨h, ?_⟩
  have := region_id_assignment.1
    [.create ⟨0, 0, 10, 10⟩, .remove ⟨1, ⟨0, 0, 10, 10⟩⟩,
     .create ⟨5, 5, 20, 20⟩] h
  simpa [count_creates, List.filter, List.range'] using this

/-- C5: the wheel-zoom guard — whenever the current scale times the
requested factor leaves `[0.05, 100]` the event is a no-op (scale
unchanged, nothing accepted/emitted); otherwise the scale is multiplied
by the factor. -/
theorem wheel_zoom_guard (z f : ℚ) :
    ((z * f < 1/20 ∨ 100 < z * f) → wheel_zoom z f = (z, false)) ∧
    (1/20 ≤ z * f → z * f ≤ 100 → wheel_zoom z f = (z * f, true)) := by
  constructor
  · intro h
    unfold wheel_zoom
    rw [if_pos]
    rcases h with h | h
    · exact Or.inl h
    · exact Or.inr h
  · intro h1 h2
    unfold wheel_zoom
    rw [if_neg]
    rw [not_or]
    constructor <;> push_neg <;> linarith

/-- Witness for C5, Scenario E of the spec: factor 200 at scale 1 is
rejected; a factor 2 at scale 1 is applied. -/
theorem wheel_zoom_guard_witness :
    (((1 : ℚ) * 200 < 1/20 ∨ (100 : ℚ) < 1 * 200) ∧
      wheel_zoom 1 200 = (1, false)) ∧
    ((1/20 : ℚ) ≤ 1 * 2 ∧ (1 : ℚ) * 2 ≤ 100 ∧
      wheel_zoom 1 2 = (1 * 2, true)) :=
  ⟨⟨by norm_num, (wheel_zoom_guard 1 200).1 (by norm_num)⟩,
    by norm_num, by norm_num,
    (wheel_zoom_guard 1 2).2 (by norm_num) (by norm_num)⟩

/-- C8 counterexample: after a failed image load the selection can be
stale — `open_image`'s except branch clears the collection but not the
view's `_selected_crop_info` — so a deletion request can target id 1
while no crop with id 1 is in the collection; confirming that deletion
raises (`TypeError` at line 585, since the 4 handles of the selected
crop are still in `_handle_items`), instead of being a silent no-op. -/
theorem delete_stale_selection_raises :
    (∀ c ∈ (⟨[], 2, some ⟨1, ⟨0, 0, 10, 10⟩⟩, corner_handles 1, none⟩ :
        AppState).crops, c.id ≠ 1) ∧
    delete_selected_crop
        ⟨[], 2, some ⟨1, ⟨0, 0, 10, 10⟩⟩, corner_handles 1, none⟩ true =
      none := by
  constructor
  · simp
  · simp [delete_selected_crop, corner_handles]

/-- C8 (amended): a deletion request whose target id is not in the
collection is a silent no-op only when nothing is selected — then
`delete_selected_crop` returns without touching the collection, the id
counter or the selection, and without raising; when instead a stale
selection carries the absent id, a confirmed deletion raises an error
(the handle loop of line 585) rather than no-op-ing. -/
theorem delete_request_absent_id (s : AppState) (confirm : Bool) (i : ℕ)
    (habs : ∀ c ∈ s.crops, c.id ≠ i)
    (hreq : s.selected.map CropRegion.id = some i ∨ s.selected = none) :
    (s.selected = none → delete_selected_crop s confirm = some s) ∧
    (s.selected ≠ none → s.handles ≠ [] → confirm = true →
      delete_selected_crop s confirm = none) := by
  constructor
  · intro h
    unfold delete_selected_crop
    rw [h]
  · intro h hh hc
    cases hs : s.selected with
    | none => exact absurd hs h
    | some info =>
      unfold delete_selected_crop
      rw [hs]
      simp [hc, hh]

/-- Witness for the amended C8: requesting deletion of id 2 with crop 1
in the collection and nothing selected is a no-op; a confirmed deletion
of the stale selection 1 over an empty collection raises. -/
theorem delete_request_absent_id_witness :
    ((∀ c ∈ ([⟨1, ⟨0, 0, 10, 10⟩⟩] : List CropRegion), c.id ≠ 2) ∧
      delete_selected_crop ⟨[⟨1, ⟨0, 0, 10, 10⟩⟩], 2, none, [], none⟩ true =
        some ⟨[⟨1, ⟨0, 0, 10, 10⟩⟩], 2, none, [], none⟩) ∧
    ((∀ c ∈ ([] : List CropRegion), c.id ≠ 1) ∧
      delete_selected_crop
          ⟨[], 3, some ⟨1, ⟨0, 0, 10, 10⟩⟩, corner_handles 1, none⟩ true =
        none) :=
  ⟨⟨by simp,
      (delete_request_absent_id ⟨[⟨1, ⟨0, 0, 10, 10⟩⟩], 2, none, [], none⟩
        true 2 (by simp) (Or.inr rfl)).1 rfl⟩,
    ⟨by simp,
      (delete_request_absent_id
          ⟨[], 3, some ⟨1, ⟨0, 0, 10, 10⟩⟩, corner_handles 1, none⟩
          true 1 (by simp) (Or.inl rfl)).2 (by simp)
        (by simp [corner_handles]) rfl⟩⟩

/-- C9 counterexample: a failed image load does NOT leave the region
collection unchanged — starting from a state holding crop 1, even the
earliest failure (the raise at `Image.open` itself) empties the
collection in `open_image`'s except branch. -/
theorem load_failure_not_state_preserving :
    (open_image_failure ⟨[⟨1, ⟨0, 0, 10, 10⟩⟩], 2, none, [], none⟩
        .atOpen).crops ≠
      (⟨[⟨1, ⟨0, 0, 10, 10⟩⟩], 2, none, [], none⟩ : AppState).crops := by
  simp [open_image_failure]

/-- C9 (amended): if loading an image fails, the region collection is
cleared; the id counter and the current selection keep their pre-load
values only when the failure happens at `Image.open` itself, while a
failure during pixel decoding (after lines 517–518 of the source have
run) leaves the id counter reset to 1 and the selection cleared. -/
theorem load_failure_state (s : AppState) :
    ((open_image_failure s .atOpen).crops = [] ∧
      (open_image_failure s .atOpen).next_id = s.next_id ∧
      (open_image_failure s .atOpen).selected = s.selected) ∧
    ((open_image_failure s .atDecode).crops = [] ∧
      (open_image_failure s .atDecode).next_id = 1 ∧
      (open_image_failure s .atDecode).selected = none) := by
  refine ⟨⟨rfl, rfl, rfl⟩, rfl, ?_, ?_⟩
  · show (set_selected_crop { s with crops := [], next_id := 1 }
      none).1.next_id = 1
    rw [set_selected_crop_next_id]
  · show (set_selected_crop { s with crops := [], next_id := 1 }
      none).1.selected = none
    rw [set_selected_crop_selected]

/-- C10: a Moving-state pointer-move preserves the dragged region's
dimensions exactly — the updated geometry keeps the drag-start
snapshot's width and height, only the top-left position changes
(stated, as the claim does, for a region that fits within the content
bounds). -/
theorem move_preserves_dimensions (snapshot : Rect) (delta : Pt)
    (W H : ℚ) (hfit : snapshot.w ≤ W ∧ snapshot.h ≤ H) :
    (move_update snapshot delta (contentBounds W H)).w = snapshot.w ∧
    (move_update snapshot delta (contentBounds W H)).h = snapshot.h := by
  unfold move_update
  exact ⟨rfl, rfl⟩

/-- Witness for C10: moving a 250×250 region by `(-500, 900)` on an
800×600 image keeps it 250×250. -/
theorem move_preserves_dimensions_witness :
    ((Rect.mk 50 50 250 250).w ≤ (800 : ℚ) ∧
      (Rect.mk 50 50 250 250).h ≤ (600 : ℚ)) ∧
    (move_update ⟨50, 50, 250, 250⟩ ⟨-500, 900⟩
        (contentBounds 800 600)).w = (Rect.mk 50 50 250 250).w ∧
    (move_update ⟨50, 50, 250, 250⟩ ⟨-500, 900⟩
        (contentBounds 800 600)).h = (Rect.mk 50 50 250 250).h :=
  ⟨⟨by norm_num, by norm_num⟩,
    move_preserves_dimensions ⟨50, 50, 250, 250⟩ ⟨-500, 900⟩ 800 600
      ⟨by norm_num, by norm_num⟩⟩

end CropApp
